import Mathlib

/-!
Shallow embedding of the Windows TUN backend of the `water` package
(`src/unnamed/part_000`), covering interface creation
(`CreateTUNWithRequestedGUID`, `openTunDev`), the ring-buffer I/O backend
(`NativeTun.Read`, `NativeTun.Write`, `NativeTun.LUID`), teardown
(`NativeTun.Close`), and MTU/event plumbing (`NativeTun.ForceMTU`).

Driver calls (wintun adapter creation, session start, non-blocking
receive/allocate-send) are external collaborators; their outcomes are
parameters of the embedded functions (a `DriverEnv` record or a script
of per-call results).  Go's `atomic.Value` holding the close flag is
modelled as `Option Bool`: `none` is the never-stored state, on which
`Load().(bool)` is a nil-interface type assertion that panics; the
embedded operations surface that panic as an explicit outcome.
Go's buffered channel `events` is modelled as a bounded queue with a
closed bit; a send on it is `chanSend`, which delivers when there is
room, blocks the caller when the buffer is full (Go blocking send with
no waiting receiver), and panics when the channel is closed.
-/

namespace Water

/-- Error kinds returned by the embedded operations, one per distinct
error value produced in `part_000`. -/
inductive WaterErr where
  | closed              -- os.ErrClosed
  | ringCorrupt         -- errors.New "Send ring corrupt"
  | readFailed          -- fmt.Errorf "Read failed: %w"
  | writeFailed         -- fmt.Errorf "Write failed: %w"
  | createFailed        -- fmt.Errorf "Error creating interface: %w"
  | sessionStartFailed  -- fmt.Errorf "Error starting session: %w"
  | invalidAddress      -- netip.ParsePrefix error returned from openTunDev
  | addrConfigFailed    -- link.SetIPAddresses error returned from openTunDev
deriving DecidableEq

/-- The event kinds of the `events` channel (`EventUp`, `EventDown`,
`EventMTUUpdate`). -/
inductive Event where
  | up | down | mtuUpdate
deriving DecidableEq

/-- State of the Go buffered channel `events chan Event`: queued
elements, capacity, and whether `close(...)` has been called on it. -/
structure EventChan where
  buf : List Event
  cap : Nat
  closed : Bool
deriving DecidableEq

/-- Outcome of a Go channel send `ch <- e` (no waiting receiver is
modelled, as in the library: nothing inside `part_000` receives). -/
inductive SendOutcome where
  | delivered   -- buffered: there was room in the buffer
  | blocked     -- buffer full: the sending goroutine blocks
  | panicked    -- channel closed: send panics
deriving DecidableEq

/-- Go semantics of `ch <- e` on a buffered channel with no waiting
receiver: panic if closed, enqueue if there is room, otherwise block. -/
def chanSend (c : EventChan) (e : Event) : EventChan × SendOutcome :=
  if c.closed then (c, SendOutcome.panicked)
  else if c.buf.length < c.cap then
    ({ c with buf := c.buf ++ [e] }, SendOutcome.delivered)
  else (c, SendOutcome.blocked)

/-- Go `close(ch)`. -/
def chanClose (c : EventChan) : EventChan := { c with closed := true }

/-- The fresh channel `make(chan Event, 10)` built at creation. -/
def freshEvents : EventChan := { buf := [], cap := 10, closed := false }

/-- The session operations `Read`/`Write` can invoke on
`tun.session`; recorded so theorems can state that a call touched (or
did not touch) the session. -/
inductive SessionOp where
  | receivePacket
  | releaseReceivePacket
  | allocateSendPacket
  | sendPacket
deriving DecidableEq

/-- The teardown steps of `NativeTun.Close`, in program-text order. -/
inductive CloseAct where
  | storeCloseTrue     -- tun.close.Store(true)
  | setReadWaitEvent   -- windows.SetEvent(tun.readWait)
  | waitRunningDrain   -- tun.running.Wait()
  | sessionEnd         -- tun.session.End()
  | adapterClose       -- tun.wt.Close()
  | closeEvents        -- close(tun.events)
deriving DecidableEq

/-- The `NativeTun` fields the claims depend on.  `close` embeds the
`atomic.Value`: `none` when nothing was ever stored (the state after
`CreateTUNWithRequestedGUID`, whose struct literal omits it), `some b`
after a `Store(b)`.  `closeOnceDone` is the state of `closeOnce
sync.Once`.  `wtNonNil` records whether `tun.wt != nil`. -/
structure NativeTun where
  close : Option Bool
  closeOnceDone : Bool
  events : EventChan
  forcedMTU : Int
  name : String
  wtNonNil : Bool
deriving DecidableEq

/-- `tun.Close()`: `closeOnce.Do` runs the teardown only on the first
call; `err` is never assigned, so every call returns nil.  Returns the
updated tun, the list of teardown actions performed by this call, and
the returned error. -/
def NativeTun.Close (t : NativeTun) : NativeTun × List CloseAct × Option WaterErr :=
  if t.closeOnceDone then (t, [], none)
  else
    ({ t with close := some true, closeOnceDone := true, events := chanClose t.events },
     [CloseAct.storeCloseTrue, CloseAct.setReadWaitEvent, CloseAct.waitRunningDrain,
      CloseAct.sessionEnd]
       ++ (if t.wtNonNil then [CloseAct.adapterClose] else [])
       ++ [CloseAct.closeEvents],
     none)

/-- Go `copy(dst, src)`: copies `min (len dst) (len src)` bytes of
`src` over the front of `dst`; `dst` keeps its length. -/
def goCopy (dst src : List Nat) : List Nat :=
  src.take dst.length ++ dst.drop (min dst.length src.length)

/-- Go `copy(buff[offset:], packet)` viewed as the new contents of
`buff` (the slice aliases the backing array from `offset` on). -/
def copyAt (buff : List Nat) (offset : Nat) (packet : List Nat) : List Nat :=
  buff.take offset ++ goCopy (buff.drop offset) packet

/-- Result of one `tun.session.ReceivePacket()` call. -/
inductive RecvResult where
  | ok (packet : List Nat)  -- err == nil
  | noMoreItems             -- windows.ERROR_NO_MORE_ITEMS
  | handleEOF               -- windows.ERROR_HANDLE_EOF
  | invalidData             -- windows.ERROR_INVALID_DATA
  | other                   -- any other driver error
deriving DecidableEq

/-- Observable outcome of a `Read` call. -/
inductive ReadOutcome where
  | panicked                                        -- nil type assertion on tun.close
  | ret (n : Nat) (buff : List Nat) (e : Option WaterErr)
  | waiting                                         -- still spinning/parked, script exhausted
deriving DecidableEq

/-- The body of `NativeTun.Read` after `running.Add(1)`: the close flag
is loaded at the `retry` label and again at the top of the `for` loop
(a `none` load panics on the `.(bool)` assertion); otherwise successive
`ReceivePacket` results are consumed from `script`.  On
`ERROR_NO_MORE_ITEMS` the code either spins (`procyield` + `continue`)
or parks on `readWait` and `goto retry` — both re-enter the loop and
re-check the flag, which the recursion mirrors.  An exhausted script
leaves the call still waiting for data. -/
def readLoop (cl : Option Bool) (buff : List Nat) (offset : Nat) :
    List RecvResult → ReadOutcome × List SessionOp
  | [] =>
    match cl with
    | none => (ReadOutcome.panicked, [])
    | some true => (ReadOutcome.ret 0 buff (some WaterErr.closed), [])
    | some false => (ReadOutcome.waiting, [])
  | r :: rest =>
    match cl with
    | none => (ReadOutcome.panicked, [])
    | some true => (ReadOutcome.ret 0 buff (some WaterErr.closed), [])
    | some false =>
      match r with
      | RecvResult.ok packet =>
          (ReadOutcome.ret packet.length (copyAt buff offset packet) none,
           [SessionOp.receivePacket, SessionOp.releaseReceivePacket])
      | RecvResult.noMoreItems =>
          let rr := readLoop cl buff offset rest
          (rr.1, SessionOp.receivePacket :: rr.2)
      | RecvResult.handleEOF =>
          (ReadOutcome.ret 0 buff (some WaterErr.closed), [SessionOp.receivePacket])
      | RecvResult.invalidData =>
          (ReadOutcome.ret 0 buff (some WaterErr.ringCorrupt), [SessionOp.receivePacket])
      | RecvResult.other =>
          (ReadOutcome.ret 0 buff (some WaterErr.readFailed), [SessionOp.receivePacket])

/-- `tun.Read(buff, offset)` given the tun's close-flag state and the
driver's receive results. -/
def NativeTun.Read (t : NativeTun) (buff : List Nat) (offset : Nat)
    (script : List RecvResult) : ReadOutcome × List SessionOp :=
  readLoop t.close buff offset script

/-- Result of `tun.session.AllocateSendPacket(size)`. -/
inductive AllocResult where
  | ok               -- err == nil
  | handleEOF        -- windows.ERROR_HANDLE_EOF
  | bufferOverflow   -- windows.ERROR_BUFFER_OVERFLOW (ring full)
  | other
deriving DecidableEq

/-- Observable outcome of a `Write` call. -/
inductive WriteOutcome where
  | panicked
  | ret (n : Int) (e : Option WaterErr)
deriving DecidableEq

/-- The body of `NativeTun.Write` after `running.Add(1)`: close-flag
load (panics on `none`), then `packetSize := len(buff) - offset`,
one `AllocateSendPacket` attempt, and the switch on its error. -/
def writeImpl (cl : Option Bool) (buff : List Nat) (offset : Nat)
    (alloc : AllocResult) : WriteOutcome × List SessionOp :=
  match cl with
  | none => (WriteOutcome.panicked, [])
  | some true => (WriteOutcome.ret 0 (some WaterErr.closed), [])
  | some false =>
    let packetSize : Int := (buff.length : Int) - (offset : Int)
    match alloc with
    | AllocResult.ok =>
        (WriteOutcome.ret packetSize none,
         [SessionOp.allocateSendPacket, SessionOp.sendPacket])
    | AllocResult.handleEOF =>
        (WriteOutcome.ret 0 (some WaterErr.closed), [SessionOp.allocateSendPacket])
    | AllocResult.bufferOverflow =>
        (WriteOutcome.ret 0 none, [SessionOp.allocateSendPacket])
    | AllocResult.other =>
        (WriteOutcome.ret 0 (some WaterErr.writeFailed), [SessionOp.allocateSendPacket])

/-- `tun.Write(buff, offset)`. -/
def NativeTun.Write (t : NativeTun) (buff : List Nat) (offset : Nat)
    (alloc : AllocResult) : WriteOutcome × List SessionOp :=
  writeImpl t.close buff offset alloc

/-- Observable outcome of a `LUID` call. -/
inductive LuidOutcome where
  | panicked
  | ret (v : Nat)
deriving DecidableEq

/-- `tun.LUID()`: `running.Add(1)`, close-flag load (panics on `none`),
returns 0 when closed, else `tun.wt.LUID()` (the adapter's id). -/
def luidImpl (cl : Option Bool) (adapterLuid : Nat) : LuidOutcome :=
  match cl with
  | none => LuidOutcome.panicked
  | some true => LuidOutcome.ret 0
  | some false => LuidOutcome.ret adapterLuid

/-- `tun.ForceMTU(mtu)`: computes `update := tun.forcedMTU != mtu`,
stores the new MTU, and when `update` sends `EventMTUUpdate` on
`tun.events` (a plain blocking channel send).  Returns the updated tun
and `some` send outcome when a send was attempted, `none` otherwise. -/
def NativeTun.ForceMTU (t : NativeTun) (mtu : Int) : NativeTun × Option SendOutcome :=
  let update := t.forcedMTU ≠ mtu
  let t1 := { t with forcedMTU := mtu }
  if update then
    let r := chanSend t1.events Event.mtuUpdate
    ({ t1 with events := r.1 }, some r.2)
  else (t1, none)

/-- Outcomes of the external collaborators `CreateTUNWithRequestedGUID`
depends on: `wintun.CreateAdapter` and `wt.StartSession`; `adapterLuid`
is the id `wt.LUID()` would report. -/
structure DriverEnv where
  adapterOk : Bool
  sessionOk : Bool
  adapterLuid : Nat
deriving DecidableEq

/-- Resource-affecting steps of the creation path, recorded so theorems
can state which resources were acquired and released. -/
inductive CreateEff where
  | createAdapter    -- wintun.CreateAdapter
  | startSession     -- wt.StartSession(0x800000)
  | adapterRelease   -- tun.wt.Close()
  | eventsClosed     -- close(tun.events)
  | setIPAddresses   -- link.SetIPAddresses(ipPrefix)
deriving DecidableEq

/-- `CreateTUNWithRequestedGUID(ifname, guid, mtu)`: creates the
adapter, picks `forcedMTU` (1420 unless `mtu > 0`), builds the struct
literal — which leaves `close` never-stored (`none`) — and starts the
8 MiB session; on session failure it closes the adapter and the events
channel before returning the error. -/
def CreateTUNWithRequestedGUID (env : DriverEnv) (ifname : String) (mtu : Int) :
    Option NativeTun × List CreateEff × Option WaterErr :=
  if ¬ env.adapterOk then
    (none, [CreateEff.createAdapter], some WaterErr.createFailed)
  else
    let forcedMTU : Int := if mtu > 0 then mtu else 1420
    if ¬ env.sessionOk then
      (none,
       [CreateEff.createAdapter, CreateEff.startSession, CreateEff.adapterRelease,
        CreateEff.eventsClosed],
       some WaterErr.sessionStartFailed)
    else
      (some { close := none, closeOnceDone := false, events := freshEvents,
              forcedMTU := forcedMTU, name := ifname, wtNonNil := true },
       [CreateEff.createAdapter, CreateEff.startSession], none)

/-- The `Interface` value `openTunDev` returns on success. -/
structure Iface where
  isTAP : Bool
  name : String
deriving DecidableEq

/-- Observable outcome of `openTunDev`. -/
inductive OpenOutcome where
  | panicked
  | ret (iface : Option Iface) (e : Option WaterErr)
deriving DecidableEq

/-- `openTunDev(config)`: create the tun, parse the configured prefix
(`parseOk` is whether `netip.ParsePrefix` succeeds), then call
`tun.LUID()` — whose close-flag load panics on a fresh tun — and apply
the address (`setAddrOk` is whether `SetIPAddresses` succeeds).  Error
returns hand back `nil` with the error; no path releases the tun. -/
def openTunDev (env : DriverEnv) (parseOk : Bool) (setAddrOk : Bool)
    (ifname : String) : OpenOutcome × List CreateEff :=
  match CreateTUNWithRequestedGUID env ifname 0 with
  | (none, effs, e) => (OpenOutcome.ret none e, effs)
  | (some tun, effs, _) =>
    if ¬ parseOk then (OpenOutcome.ret none (some WaterErr.invalidAddress), effs)
    else
      match luidImpl tun.close env.adapterLuid with
      | LuidOutcome.panicked => (OpenOutcome.panicked, effs)
      | LuidOutcome.ret _ =>
        if ¬ setAddrOk then
          (OpenOutcome.ret none (some WaterErr.addrConfigFailed),
           effs ++ [CreateEff.setIPAddresses])
        else
          (OpenOutcome.ret (some { isTAP := false, name := ifname }) none,
           effs ++ [CreateEff.setIPAddresses])

/-! ### Concrete states used by witnesses and counterexamples -/

/-- The tun `CreateTUNWithRequestedGUID ⟨true, true, 7⟩ "tun0" 0`
returns: note `close := none` — the struct literal at creation never
stores the atomic close flag. -/
def tun0 : NativeTun :=
  { close := none, closeOnceDone := false, events := freshEvents,
    forcedMTU := 1420, name := "tun0", wtNonNil := true }

/-- A tun whose close flag has been stored as `false` — the state the
spec's "open" interface describes (the code itself never stores
`false`; see the C1 theorem). -/
def openTun : NativeTun :=
  { close := some false, closeOnceDone := false, events := freshEvents,
    forcedMTU := 1420, name := "tun0", wtNonNil := true }

/-! ### Facts about `goCopy`/`copyAt` (Go `copy` semantics) -/

theorem goCopy_length (dst src : List Nat) : (goCopy dst src).length = dst.length := by
  simp only [goCopy, List.length_append, List.length_take, List.length_drop]
  omega

theorem goCopy_of_le (dst src : List Nat) (h : src.length ≤ dst.length) :
    goCopy dst src = src ++ dst.drop src.length := by
  unfold goCopy
  rw [List.take_of_length_le h, min_eq_right h]

theorem copyAt_length (buff packet : List Nat) (offset : Nat) :
    (copyAt buff offset packet).length = buff.length := by
  simp only [copyAt, List.length_append, goCopy_length, List.length_take, List.length_drop]
  omega

theorem copyAt_take (buff packet : List Nat) (offset : Nat) (ho : offset ≤ buff.length) :
    (copyAt buff offset packet).take offset = buff.take offset := by
  unfold copyAt
  rw [List.take_left' (by rw [List.length_take]; exact min_eq_left ho)]

theorem copyAt_drop (buff packet : List Nat) (offset : Nat) (ho : offset ≤ buff.length) :
    (copyAt buff offset packet).drop offset = goCopy (buff.drop offset) packet := by
  unfold copyAt
  rw [List.drop_left' (by rw [List.length_take]; exact min_eq_left ho)]

theorem copyAt_packet (buff packet : List Nat) (offset : Nat)
    (h : offset + packet.length ≤ buff.length) :
    ((copyAt buff offset packet).drop offset).take packet.length = packet := by
  have ho : offset ≤ buff.length := le_trans (Nat.le_add_right _ _) h
  have hp : packet.length ≤ (buff.drop offset).length := by
    rw [List.length_drop]; omega
  rw [copyAt_drop _ _ _ ho, goCopy_of_le _ _ hp, List.take_left' rfl]

theorem copyAt_drop_tail (buff packet : List Nat) (offset : Nat)
    (h : offset + packet.length ≤ buff.length) :
    (copyAt buff offset packet).drop (offset + packet.length) =
      buff.drop (offset + packet.length) := by
  have ho : offset ≤ buff.length := le_trans (Nat.le_add_right _ _) h
  have hp : packet.length ≤ (buff.drop offset).length := by
    rw [List.length_drop]; omega
  calc (copyAt buff offset packet).drop (offset + packet.length)
      = ((copyAt buff offset packet).drop offset).drop packet.length :=
        (List.drop_drop _ _ _).symm
    _ = (goCopy (buff.drop offset) packet).drop packet.length := by
        rw [copyAt_drop _ _ _ ho]
    _ = (packet ++ (buff.drop offset).drop packet.length).drop packet.length := by
        rw [goCopy_of_le _ _ hp]
    _ = (buff.drop offset).drop packet.length := List.drop_left' rfl
    _ = buff.drop (offset + packet.length) := List.drop_drop _ _ _

/-! ### Claim theorems -/

/-- C1: the claim says the close-flag check at entry to Read, Write and
LUID evaluates to `false` on a freshly created tun and never panics.
The code contradicts it: `CreateTUNWithRequestedGUID` never stores the
`atomic.Value`, so the very first `Load().(bool)` is a nil-interface
type assertion and panics — Read, Write and LUID all panic on a fresh
tun, and `openTunDev` itself panics at its `tun.LUID()` call on every
otherwise-successful creation. -/
theorem C1_first_io_after_creation_panics :
    (CreateTUNWithRequestedGUID ⟨true, true, 7⟩ "tun0" 0).1 = some tun0 ∧
    tun0.close = none ∧
    (tun0.Read [0, 0] 0 [RecvResult.ok [1]]).1 = ReadOutcome.panicked ∧
    (tun0.Write [1, 2] 0 AllocResult.ok).1 = WriteOutcome.panicked ∧
    luidImpl tun0.close 7 = LuidOutcome.panicked ∧
    (openTunDev ⟨true, true, 7⟩ true true "tun0").1 = OpenOutcome.panicked := by
  refine ⟨?_, rfl, rfl, rfl, rfl, ?_⟩ <;> rfl

/-- C5: when the close-flag check passes (flag loaded as `false`) and
`AllocateSendPacket` reports `ERROR_BUFFER_OVERFLOW` (ring full),
`Write` returns `(0, nil)` — a zero-length success, not an error — and
the packet is silently dropped (no `SendPacket` is issued). -/
theorem C5_ring_full_write_returns_zero_nil (t : NativeTun) (h : t.close = some false)
    (buff : List Nat) (offset : Nat) :
    t.Write buff offset AllocResult.bufferOverflow =
      (WriteOutcome.ret 0 none, [SessionOp.allocateSendPacket]) := by
  simp [NativeTun.Write, writeImpl, h]

theorem C5_ring_full_write_returns_zero_nil_witness :
    openTun.close = some false ∧
    openTun.Write [1, 2, 3] 0 AllocResult.bufferOverflow =
      (WriteOutcome.ret 0 none, [SessionOp.allocateSendPacket]) :=
  ⟨rfl, C5_ring_full_write_returns_zero_nil openTun rfl [1, 2, 3] 0⟩

/-- C8: when the adapter is created but `StartSession` fails,
`CreateTUNWithRequestedGUID` closes the just-created adapter (and the
events channel) before returning the wrapped session-start error. -/
theorem C8_session_failure_releases_adapter (env : DriverEnv) (ifname : String) (mtu : Int)
    (ha : env.adapterOk = true) (hs : env.sessionOk = false) :
    CreateTUNWithRequestedGUID env ifname mtu =
      (none,
       [CreateEff.createAdapter, CreateEff.startSession, CreateEff.adapterRelease,
        CreateEff.eventsClosed],
       some WaterErr.sessionStartFailed) ∧
    CreateEff.adapterRelease ∈ (CreateTUNWithRequestedGUID env ifname mtu).2.1 := by
  refine ⟨?_, ?_⟩ <;> simp [CreateTUNWithRequestedGUID, ha, hs]

theorem C8_session_failure_releases_adapter_witness :
    (DriverEnv.adapterOk ⟨true, false, 7⟩ = true ∧ DriverEnv.sessionOk ⟨true, false, 7⟩ = false) ∧
    (CreateTUNWithRequestedGUID ⟨true, false, 7⟩ "tun0" 0 =
      (none,
       [CreateEff.createAdapter, CreateEff.startSession, CreateEff.adapterRelease,
        CreateEff.eventsClosed],
       some WaterErr.sessionStartFailed) ∧
     CreateEff.adapterRelease ∈ (CreateTUNWithRequestedGUID ⟨true, false, 7⟩ "tun0" 0).2.1) :=
  ⟨⟨rfl, rfl⟩, C8_session_failure_releases_adapter ⟨true, false, 7⟩ "tun0" 0 rfl rfl⟩

/-- C3 counterexample: on a CIDR parse failure, `openTunDev` returns
the parse error with no adapter release — `tun.wt.Close()` is never
called on this path, so the adapter created at line 42 stays
allocated, contradicting the claim that it is released before the
error is returned. -/
theorem C3_parse_failure_leaks_adapter_counterexample :
    openTunDev ⟨true, true, 7⟩ false true "tun0" =
      (OpenOutcome.ret none (some WaterErr.invalidAddress),
       [CreateEff.createAdapter, CreateEff.startSession]) ∧
    CreateEff.adapterRelease ∉ (openTunDev ⟨true, true, 7⟩ false true "tun0").2 := by
  refine ⟨rfl, ?_⟩
  decide

/-- C3 (amended): an unparsable address prefix makes `openTunDev`
return the parse error (`InvalidAddress`), but the adapter created
before the parse step is NOT released — the effect trace up to the
error return contains no adapter release, so the adapter leaks. -/
theorem C3_parse_failure_returns_error_without_release (env : DriverEnv)
    (setAddrOk : Bool) (ifname : String)
    (ha : env.adapterOk = true) (hs : env.sessionOk = true) :
    openTunDev env false setAddrOk ifname =
      (OpenOutcome.ret none (some WaterErr.invalidAddress),
       [CreateEff.createAdapter, CreateEff.startSession]) ∧
    CreateEff.adapterRelease ∉ (openTunDev env false setAddrOk ifname).2 := by
  have hc : CreateTUNWithRequestedGUID env ifname 0 =
      (some { close := none, closeOnceDone := false, events := freshEvents,
              forcedMTU := 1420, name := ifname, wtNonNil := true },
       [CreateEff.createAdapter, CreateEff.startSession], none) := by
    simp [CreateTUNWithRequestedGUID, ha, hs]
  refine ⟨?_, ?_⟩ <;> simp [openTunDev, hc]

theorem C3_parse_failure_returns_error_without_release_witness :
    (DriverEnv.adapterOk ⟨true, true, 7⟩ = true ∧ DriverEnv.sessionOk ⟨true, true, 7⟩ = true) ∧
    (openTunDev ⟨true, true, 7⟩ false true "tap0" =
      (OpenOutcome.ret none (some WaterErr.invalidAddress),
       [CreateEff.createAdapter, CreateEff.startSession]) ∧
     CreateEff.adapterRelease ∉ (openTunDev ⟨true, true, 7⟩ false true "tap0").2) :=
  ⟨⟨rfl, rfl⟩, C3_parse_failure_returns_error_without_release ⟨true, true, 7⟩ true "tap0" rfl rfl⟩

/-- C6 counterexample: a Read whose caller buffer (from `offset`) is
smaller than the received packet still returns the full `packetSize`,
but Go `copy` silently truncates: with buffer `[0,0]`, offset 0 and
packet `[1,2,3]`, Read returns `(3, nil)` while the buffer holds only
`[1,2]` — the packet's bytes are not all made available, contradicting
the unconditional "no truncation" claim. -/
theorem C6_small_buffer_truncates_counterexample :
    (readLoop (some false) [0, 0] 0 [RecvResult.ok [1, 2, 3]]).1 =
      ReadOutcome.ret 3 [1, 2] none ∧
    ¬ ((copyAt [0, 0] 0 [1, 2, 3]).drop 0).take 3 = [1, 2, 3] := by
  decide

/-- C6 (amended): when the close-flag check passes and the caller's
buffer has room for the packet at `offset`
(`offset + len(packet) ≤ len(buff)`), a successful receive copies the
whole packet to `buff[offset:]` — leaving the bytes before `offset`
and after the packet unchanged — releases the ring slot, and returns
`(packetSize, nil)`; without that room the packet is truncated (see
the counterexample). -/
theorem C6_read_success_copies_whole_packet (t : NativeTun) (buff packet : List Nat)
    (offset : Nat) (rest : List RecvResult)
    (hcl : t.close = some false)
    (h : offset + packet.length ≤ buff.length) :
    t.Read buff offset (RecvResult.ok packet :: rest) =
      (ReadOutcome.ret packet.length (copyAt buff offset packet) none,
       [SessionOp.receivePacket, SessionOp.releaseReceivePacket]) ∧
    (copyAt buff offset packet).length = buff.length ∧
    (copyAt buff offset packet).take offset = buff.take offset ∧
    ((copyAt buff offset packet).drop offset).take packet.length = packet ∧
    (copyAt buff offset packet).drop (offset + packet.length) =
      buff.drop (offset + packet.length) := by
  have ho : offset ≤ buff.length := le_trans (Nat.le_add_right _ _) h
  exact ⟨by simp [NativeTun.Read, readLoop, hcl], copyAt_length _ _ _,
    copyAt_take _ _ _ ho, copyAt_packet _ _ _ h, copyAt_drop_tail _ _ _ h⟩

theorem C6_read_success_copies_whole_packet_witness :
    (openTun.close = some false ∧ 1 + ([1, 2] : List Nat).length ≤ ([9, 9, 9, 9] : List Nat).length) ∧
    (openTun.Read [9, 9, 9, 9] 1 [RecvResult.ok [1, 2]] =
      (ReadOutcome.ret ([1, 2] : List Nat).length (copyAt [9, 9, 9, 9] 1 [1, 2]) none,
       [SessionOp.receivePacket, SessionOp.releaseReceivePacket]) ∧
     (copyAt [9, 9, 9, 9] 1 [1, 2]).length = ([9, 9, 9, 9] : List Nat).length ∧
     (copyAt [9, 9, 9, 9] 1 [1, 2]).take 1 = ([9, 9, 9, 9] : List Nat).take 1 ∧
     ((copyAt [9, 9, 9, 9] 1 [1, 2]).drop 1).take ([1, 2] : List Nat).length = [1, 2] ∧
     (copyAt [9, 9, 9, 9] 1 [1, 2]).drop (1 + ([1, 2] : List Nat).length) =
       ([9, 9, 9, 9] : List Nat).drop (1 + ([1, 2] : List Nat).length)) :=
  ⟨⟨rfl, by decide⟩,
   C6_read_success_copies_whole_packet openTun [9, 9, 9, 9] [1, 2] 1 [] rfl (by decide)⟩

/-- C2: once `Close` has stored the close flag, any Read or Write that
loads it returns `Closed` at once and performs no session operation;
and within `Close`'s own teardown sequence the `running.Wait()` drain
strictly precedes `session.End()`, so the session is not released
before in-flight calls have drained. -/
theorem C2_after_close_io_rejected_and_drain_precedes_release
    (t : NativeTun) (h : t.closeOnceDone = false)
    (buff : List Nat) (offset : Nat) (script : List RecvResult) (alloc : AllocResult) :
    (t.Close).1.close = some true ∧
    readLoop (some true) buff offset script =
      (ReadOutcome.ret 0 buff (some WaterErr.closed), []) ∧
    writeImpl (some true) buff offset alloc =
      (WriteOutcome.ret 0 (some WaterErr.closed), []) ∧
    (t.Close).2.1.indexOf CloseAct.waitRunningDrain <
      (t.Close).2.1.indexOf CloseAct.sessionEnd ∧
    CloseAct.sessionEnd ∈ (t.Close).2.1 := by
  refine ⟨?_, ?_, rfl, ?_, ?_⟩
  · simp [NativeTun.Close, h]
  · cases script <;> rfl
  · cases hw : t.wtNonNil <;> simp [NativeTun.Close, h, hw]
  · cases hw : t.wtNonNil <;> simp [NativeTun.Close, h, hw]

theorem C2_after_close_io_rejected_and_drain_precedes_release_witness :
    tun0.closeOnceDone = false ∧
    ((tun0.Close).1.close = some true ∧
     readLoop (some true) [0] 0 [RecvResult.noMoreItems] =
       (ReadOutcome.ret 0 [0] (some WaterErr.closed), []) ∧
     writeImpl (some true) [0] 0 AllocResult.ok =
       (WriteOutcome.ret 0 (some WaterErr.closed), []) ∧
     (tun0.Close).2.1.indexOf CloseAct.waitRunningDrain <
       (tun0.Close).2.1.indexOf CloseAct.sessionEnd ∧
     CloseAct.sessionEnd ∈ (tun0.Close).2.1) :=
  ⟨rfl, C2_after_close_io_rejected_and_drain_precedes_release tun0 rfl
    [0] 0 [RecvResult.noMoreItems] AllocResult.ok⟩

/-- C4: `closeOnce.Do` runs the teardown only on the first `Close`; a
second call performs no action and leaves the tun unchanged, both
calls return nil (`err` is never assigned), and across both calls each
resource-release step (`session.End`, `wt.Close`, `close(events)`)
happens at most once. -/
theorem C4_close_idempotent_teardown_once (t : NativeTun) (h : t.closeOnceDone = false) :
    (t.Close).2.2 = none ∧
    ((t.Close).1.Close).2.2 = none ∧
    ((t.Close).1.Close).2.1 = [] ∧
    ((t.Close).1.Close).1 = (t.Close).1 ∧
    ((t.Close).2.1 ++ ((t.Close).1.Close).2.1).count CloseAct.sessionEnd = 1 ∧
    ((t.Close).2.1 ++ ((t.Close).1.Close).2.1).count CloseAct.adapterClose ≤ 1 ∧
    ((t.Close).2.1 ++ ((t.Close).1.Close).2.1).count CloseAct.closeEvents = 1 := by
  cases hw : t.wtNonNil <;> simp [NativeTun.Close, h, hw]

theorem C4_close_idempotent_teardown_once_witness :
    tun0.closeOnceDone = false ∧
    ((tun0.Close).2.2 = none ∧
     ((tun0.Close).1.Close).2.2 = none ∧
     ((tun0.Close).1.Close).2.1 = [] ∧
     ((tun0.Close).1.Close).1 = (tun0.Close).1 ∧
     ((tun0.Close).2.1 ++ ((tun0.Close).1.Close).2.1).count CloseAct.sessionEnd = 1 ∧
     ((tun0.Close).2.1 ++ ((tun0.Close).1.Close).2.1).count CloseAct.adapterClose ≤ 1 ∧
     ((tun0.Close).2.1 ++ ((tun0.Close).1.Close).2.1).count CloseAct.closeEvents = 1) :=
  ⟨rfl, C4_close_idempotent_teardown_once tun0 rfl⟩

/-- C9: `Close` stores the close flag strictly before it signals the
read-wait object, so a Read parked on `WaitForSingleObject` that the
signal wakes re-enters at `retry`, observes the flag already true, and
returns `Closed` immediately — no further session calls and no further
waiting, whatever the driver would have answered next. -/
theorem C9_close_wakes_parked_read_to_closed (t : NativeTun) (h : t.closeOnceDone = false)
    (buff : List Nat) (offset : Nat) (script : List RecvResult) :
    CloseAct.setReadWaitEvent ∈ (t.Close).2.1 ∧
    (t.Close).2.1.indexOf CloseAct.storeCloseTrue <
      (t.Close).2.1.indexOf CloseAct.setReadWaitEvent ∧
    (t.Close).1.close = some true ∧
    readLoop (some true) buff offset script =
      (ReadOutcome.ret 0 buff (some WaterErr.closed), []) := by
  refine ⟨?_, ?_, ?_, ?_⟩
  · cases hw : t.wtNonNil <;> simp [NativeTun.Close, h, hw]
  · cases hw : t.wtNonNil <;> simp [NativeTun.Close, h, hw]
  · simp [NativeTun.Close, h]
  · cases script <;> rfl

theorem C9_close_wakes_parked_read_to_closed_witness :
    tun0.closeOnceDone = false ∧
    (CloseAct.setReadWaitEvent ∈ (tun0.Close).2.1 ∧
     (tun0.Close).2.1.indexOf CloseAct.storeCloseTrue <
       (tun0.Close).2.1.indexOf CloseAct.setReadWaitEvent ∧
     (tun0.Close).1.close = some true ∧
     readLoop (some true) [0] 0 [RecvResult.ok [5]] =
       (ReadOutcome.ret 0 [0] (some WaterErr.closed), [])) :=
  ⟨rfl, C9_close_wakes_parked_read_to_closed tun0 rfl [0] 0 [RecvResult.ok [5]]⟩

/-- A tun whose 10-slot events channel is full (and not closed). -/
def fullTun : NativeTun :=
  { close := some false, closeOnceDone := false,
    events := { buf := List.replicate 10 Event.up, cap := 10, closed := false },
    forcedMTU := 1420, name := "tun0", wtNonNil := true }

/-- C7 counterexample: `tun.events <- EventMTUUpdate` is a plain
blocking channel send, not a non-blocking best-effort one: with the
10-slot queue full, `ForceMTU 1500` (a real change from 1420) blocks
the caller instead of dropping the event. -/
theorem C7_full_queue_blocks_counterexample :
    fullTun.forcedMTU ≠ (1500 : Int) ∧
    fullTun.events.buf.length = fullTun.events.cap ∧
    (fullTun.ForceMTU 1500).2 = some SendOutcome.blocked ∧
    some SendOutcome.blocked ≠ some SendOutcome.delivered := by
  refine ⟨by decide, rfl, ?_, by decide⟩
  rfl

/-- C7 (amended): `ForceMTU x` stores `x` and attempts a channel send
of the MTU event exactly when `x` differs from the previous value —
calling it twice with the same `x` sends at most once — but the send
is a plain blocking send: on a full queue the caller blocks (and on a
closed queue it panics) rather than the event being dropped. -/
theorem C7_force_mtu_sets_and_sends_iff_changed (t : NativeTun) (x : Int) :
    (t.ForceMTU x).1.forcedMTU = x ∧
    ((t.ForceMTU x).2 = none ↔ t.forcedMTU = x) ∧
    (t.forcedMTU ≠ x →
      (t.ForceMTU x).2 = some (chanSend t.events Event.mtuUpdate).2 ∧
      (t.ForceMTU x).1.events = (chanSend t.events Event.mtuUpdate).1) ∧
    (t.events.closed = false → ¬ t.events.buf.length < t.events.cap →
      t.forcedMTU ≠ x → (t.ForceMTU x).2 = some SendOutcome.blocked) ∧
    ((t.ForceMTU x).1.ForceMTU x).2 = none := by
  refine ⟨?_, ?_, ?_, ?_, ?_⟩
  · by_cases hx : t.forcedMTU = x <;> simp [NativeTun.ForceMTU, hx]
  · by_cases hx : t.forcedMTU = x <;> simp [NativeTun.ForceMTU, hx]
  · intro hx; simp [NativeTun.ForceMTU, hx]
  · intro h1 h2 hx; simp [NativeTun.ForceMTU, hx, chanSend, h1, h2]
  · by_cases hx : t.forcedMTU = x <;> simp [NativeTun.ForceMTU, hx]

theorem C7_force_mtu_sets_and_sends_iff_changed_witness :
    (fullTun.ForceMTU 1500).1.forcedMTU = 1500 ∧
    ((fullTun.ForceMTU 1500).2 = none ↔ fullTun.forcedMTU = 1500) ∧
    (fullTun.forcedMTU ≠ 1500 →
      (fullTun.ForceMTU 1500).2 = some (chanSend fullTun.events Event.mtuUpdate).2 ∧
      (fullTun.ForceMTU 1500).1.events = (chanSend fullTun.events Event.mtuUpdate).1) ∧
    (fullTun.events.closed = false → ¬ fullTun.events.buf.length < fullTun.events.cap →
      fullTun.forcedMTU ≠ 1500 → (fullTun.ForceMTU 1500).2 = some SendOutcome.blocked) ∧
    ((fullTun.ForceMTU 1500).1.ForceMTU 1500).2 = none :=
  C7_force_mtu_sets_and_sends_iff_changed fullTun 1500

/-- C10 counterexample: after `Close` (which closes the events
channel), `ForceMTU 1500` on a tun whose stored MTU is 1420 attempts a
send on the closed channel and panics — it does not complete
normally. -/
theorem C10_force_mtu_after_close_panics_counterexample :
    (tun0.Close).1.forcedMTU ≠ (1500 : Int) ∧
    (tun0.Close).1.events.closed = true ∧
    ((tun0.Close).1.ForceMTU 1500).2 = some SendOutcome.panicked := by
  refine ⟨by decide, rfl, ?_⟩
  rfl

/-- C10 (amended): after `Close` has completed, `ForceMTU x` with `x`
different from the stored MTU stores `x` but then panics: the MTU
event send hits the events channel that `Close` already closed. -/
theorem C10_force_mtu_after_close_panics (t : NativeTun) (x : Int)
    (h : t.closeOnceDone = false) (hx : t.forcedMTU ≠ x) :
    ((t.Close).1.ForceMTU x).2 = some SendOutcome.panicked ∧
    ((t.Close).1.ForceMTU x).1.forcedMTU = x := by
  have h1 : (t.Close).1 = { t with close := some true, closeOnceDone := true, events := chanClose t.events } := by
    simp [NativeTun.Close, h]
  rw [h1]
  simp [NativeTun.ForceMTU, chanSend, chanClose, hx]

theorem C10_force_mtu_after_close_panics_witness :
    (tun0.closeOnceDone = false ∧ tun0.forcedMTU ≠ (1500 : Int)) ∧
    (((tun0.Close).1.ForceMTU 1500).2 = some SendOutcome.panicked ∧
     ((tun0.Close).1.ForceMTU 1500).1.forcedMTU = 1500) :=
  ⟨⟨rfl, by decide⟩, C10_force_mtu_after_close_panics tun0 1500 rfl (by decide)⟩

end Water
